import Mathlib

/-!
Verification development for the Symbol node monitoring script.

The script polls each monitored node's health and chain-info endpoints,
persists a per-node record (status, error kind, sub-service states, block
height, error-detected and last-notified timestamps), flags block-height
lag relative to the fleet maximum, and dispatches throttled alert and
recovery notifications through Slack or direct email.

The embedding below mirrors the current snapshot of the script
(the one computing the fleet maximum from the live records and
suppressing direct email whenever Slack configuration exists).
Spreadsheet cells holding dates are modelled as `Option Int`
(milliseconds; `none` is the empty cell, and a Date object is always
truthy in JavaScript, so truthiness is `isSome`).  Numeric cells are
`Option Int` with JavaScript truthiness: the empty cell and the number 0
are both falsy.  Strings kept from the source retain their exact values.
-/

namespace SymbolNodeMonitor

/-- Status string constants of the script (STATUS_TYPES). -/
def RUNNING : String := "Running"

/-- Status constant for the error state. -/
def ERROR : String := "Error"

/-- Status constant for the block-delay state. -/
def DELAY : String := "Delay"

/-- Error-type constant for health-check timeouts (ERROR_TYPES.TIMEOUT). -/
def ERR_TIMEOUT : String := "Timeout"

/-- Error-type constant for degraded db or api sub-services (ERROR_TYPES.DB_API). -/
def ERR_DB_API : String := "DB/API"

/-- Error-type constant for block delay (ERROR_TYPES.BLOCK_DELAY). -/
def ERR_BLOCK_DELAY : String := "BlockDelay"

/-- Error-type constant for TLS certificate failures (ERROR_TYPES.SSL_CERT). -/
def ERR_SSL_CERT : String := "SSL証明書期限切れ"

/-- Notification re-alert interval in milliseconds (NOTIFICATION_INTERVAL). -/
def NOTIFICATION_INTERVAL : Int := 30 * 60 * 1000

/-- One monitored node's row of the sheet.  Timestamps are `Option Int`
(milliseconds since epoch; `none` is the empty cell).  `blockHeight` is the
G-column numeric cell (`none` is the empty cell). -/
structure NodeRecord where
  url : String
  status : String
  errorType : String
  dbState : String
  apiState : String
  blockHeight : Option Int
  errorDetectedAt : Option Int
  lastNotifiedAt : Option Int
deriving Repr, DecidableEq

/-- JavaScript truthiness of a numeric cell: the empty cell and 0 are falsy. -/
def numCellTruthy : Option Int → Bool
  | none => false
  | some h => h != 0

/-- Script-properties and session configuration, plus flags recording whether
the external transports throw when invoked (the script catches such throws). -/
structure ScriptConfig where
  slackWebhookUrl : String
  slackToken : String
  slackChannel : String
  emailAddress : String
  sessionEmail : String
  emailThrows : Bool
  slackThrows : Bool
deriving Repr, DecidableEq

/-- checkSlackConfiguration: Slack is configured when a webhook URL is set,
or both a bot token and a channel are set. -/
def checkSlackConfiguration (cfg : ScriptConfig) : Bool :=
  cfg.slackWebhookUrl != "" || (cfg.slackToken != "" && cfg.slackChannel != "")

/-- The operator address used for direct email: the session identity, falling
back to the EMAIL_ADDRESS script property. -/
def resolveOperatorEmail (cfg : ScriptConfig) : String :=
  if cfg.sessionEmail != "" then cfg.sessionEmail else cfg.emailAddress

/-- The payload of an outbound notification, abstracting message formatting. -/
inductive Msg where
  | alertBatch (targets : List NodeRecord)
  | recovery (url : String)
deriving Repr, DecidableEq

/-- An observable side effect of a pass. -/
inductive Effect where
  | email (recipient : String) (m : Msg)
  | slackWebhook (url : String) (m : Msg)
  | slackBot (channel : String) (m : Msg)
  | logWarn (tag : String)
  | logError (tag : String)
deriving Repr, DecidableEq

/-- sendSlackNotification: skip when configuration is incomplete; use the
webhook when present, else the bot API with token and channel. -/
def sendSlackNotification (cfg : ScriptConfig) (m : Msg) : List Effect :=
  if cfg.slackWebhookUrl == "" && (cfg.slackToken == "" || cfg.slackChannel == "") then []
  else if cfg.slackWebhookUrl != "" then [Effect.slackWebhook cfg.slackWebhookUrl m]
  else if cfg.slackToken != "" && cfg.slackChannel != "" then [Effect.slackBot cfg.slackChannel m]
  else []

/-- The try/catch around a direct-email send: the send is attempted whenever
an address resolves; a transport throw is caught and logged. -/
def directEmailEffects (cfg : ScriptConfig) (m : Msg) : List Effect :=
  if resolveOperatorEmail cfg != "" then
    if cfg.emailThrows then
      [Effect.email (resolveOperatorEmail cfg) m, Effect.logError "mailerr"]
    else [Effect.email (resolveOperatorEmail cfg) m]
  else []

/-- The try/catch around a Slack send: a transport throw is caught and logged. -/
def slackAttempt (cfg : ScriptConfig) (m : Msg) : List Effect :=
  sendSlackNotification cfg m ++ (if cfg.slackThrows then [Effect.logError "slackerr"] else [])

/-- sendNotification's channel effects: direct email only when no Slack
configuration exists, then the Slack attempt. -/
def sendNotificationEffects (cfg : ScriptConfig) (targets : List NodeRecord) : List Effect :=
  (if checkSlackConfiguration cfg then [] else directEmailEffects cfg (Msg.alertBatch targets))
    ++ slackAttempt cfg (Msg.alertBatch targets)

/-- sendRecoveryNotification: direct email only when no Slack configuration
exists, then the Slack attempt. -/
def sendRecoveryNotification (cfg : ScriptConfig) (url : String) : List Effect :=
  (if checkSlackConfiguration cfg then [] else directEmailEffects cfg (Msg.recovery url))
    ++ slackAttempt cfg (Msg.recovery url)

/-- setNodeError: write status and error type, and stamp the error-detected
cell only when it is currently empty (a stored Date is always truthy). -/
def setNodeError (now : Int) (status errorType : String) (r : NodeRecord) : NodeRecord :=
  { r with status := status, errorType := errorType,
           errorDetectedAt := if r.errorDetectedAt.isSome then r.errorDetectedAt else some now }

/-- clearNodeError: send a recovery notification when a last-notified time is
recorded, then clear status, error type and both timestamps. -/
def clearNodeError (cfg : ScriptConfig) (r : NodeRecord) : NodeRecord × List Effect :=
  ({ r with status := RUNNING, errorType := "", errorDetectedAt := none, lastNotifiedAt := none },
   if r.lastNotifiedAt.isSome then sendRecoveryNotification cfg r.url else [])

/-- clearHealthData: blank the db, api and block-height cells. -/
def clearHealthData (r : NodeRecord) : NodeRecord :=
  { r with dbState := "", apiState := "", blockHeight := none }

/-- Parsed JSON body of the health endpoint: the `db` and `apiNode` fields of
its `status` object (`none` when the field or the object is absent). -/
structure HealthBody where
  db : Option String
  apiNode : Option String
deriving Repr, DecidableEq

/-- Raw result of fetching the health endpoint.  `response` carries the HTTP
code and, for code 200, the parsed body.  `thrown` covers an exception of the
fetch or of JSON parsing; the two booleans record whether the error string
contains a timeout substring and whether it contains a
certificate/SSL/TLS substring. -/
inductive HealthFetch where
  | response (code : Int) (body : HealthBody)
  | thrown (errorStr : String) (hasTimeoutSub : Bool) (hasTlsSub : Bool)
deriving Repr, DecidableEq

/-- Normalized health result returned by checkNodeHealth. -/
structure HealthResult where
  timeout : Bool
  sslError : Bool
  error : Option String
  db : String
  api : String
deriving Repr, DecidableEq

/-- The `value || "unknown"` defaulting of the script: an absent or empty
field becomes "unknown". -/
def orUnknown : Option String → String
  | none => "unknown"
  | some s => if s != "" then s else "unknown"

/-- checkNodeHealth: non-200 responses become a transport error; a 200
response yields the defaulted db and apiNode values; a thrown error is
classified by its substrings, timeout first, then certificate/SSL/TLS. -/
def checkNodeHealth : HealthFetch → HealthResult
  | HealthFetch.response code body =>
    if code != 200 then
      { timeout := false, sslError := false, error := some ("HTTP " ++ toString code),
        db := "", api := "" }
    else
      { timeout := false, sslError := false, error := none,
        db := orUnknown body.db, api := orUnknown body.apiNode }
  | HealthFetch.thrown e hTO hTLS =>
    if hTO then { timeout := true, sslError := false, error := none, db := "", api := "" }
    else if hTLS then { timeout := false, sslError := true, error := some e, db := "", api := "" }
    else { timeout := false, sslError := false, error := some e, db := "", api := "" }

/-- Response of the chain-info endpoint: the HTTP code and the result of
parseInt on the body's height field (`none` when parseInt yields NaN). -/
structure ChainResponse where
  code : Int
  heightParse : Option Int
deriving Repr, DecidableEq

/-- Raw result of fetching the chain-info endpoint. -/
inductive ChainFetch where
  | ok (resp : ChainResponse)
  | thrown (errorStr : String)
deriving Repr, DecidableEq

/-- Result of getChainHeight. -/
structure ChainResult where
  height : Option Int
  error : Option String
deriving Repr, DecidableEq

/-- getChainHeight: a height is returned exactly for a 200 response whose
height field parses to an integer; every failure yields a null height. -/
def getChainHeight : ChainFetch → ChainResult
  | ChainFetch.ok resp =>
    if resp.code != 200 then { height := none, error := some ("HTTP " ++ toString resp.code) }
    else { height := resp.heightParse, error := none }
  | ChainFetch.thrown e => { height := none, error := some e }

/-- monitorNode: apply one node's probe results to its record.  Timeout and
TLS errors set the error state and blank the health data; any other health
failure only logs; a healthy response stores db/api, stores the height when
one was obtained, then either flags a DB/API error or clears the error
state (possibly emitting a recovery notification). -/
def monitorNode (cfg : ScriptConfig) (now : Int) (hf : HealthFetch) (cf : ChainFetch)
    (r : NodeRecord) : NodeRecord × List Effect :=
  let h := checkNodeHealth hf
  if h.timeout then (clearHealthData (setNodeError now ERROR ERR_TIMEOUT r), [])
  else if h.sslError then (clearHealthData (setNodeError now ERROR ERR_SSL_CERT r), [])
  else if h.error.isSome then (r, [Effect.logWarn "health"])
  else
    let r1 := { r with dbState := h.db, apiState := h.api }
    let r2 := match (getChainHeight cf).height with
      | some ht => { r1 with blockHeight := some ht }
      | none => r1
    if h.db != "up" || h.api != "up" then (setNodeError now ERROR ERR_DB_API r2, [])
    else clearNodeError cfg r2

/-- One step of the fleet-maximum fold of checkBlockDelay: a truthy height
replaces the accumulator when strictly greater. -/
def maxStep (m : Int) (r : NodeRecord) : Int :=
  if numCellTruthy r.blockHeight = true ∧ m < r.blockHeight.getD 0 then r.blockHeight.getD 0 else m

/-- The fleet maximum block height computed by checkBlockDelay, starting
from 0 and considering only truthy height cells. -/
def maxHeightOf (rs : List NodeRecord) : Int :=
  rs.foldl maxStep 0

/-- The per-record flagging of checkBlockDelay: a record with a truthy
height strictly below the minimum acceptable height is set to
Delay/BlockDelay with first-write-wins error stamping. -/
def delayStep (now minAcceptable : Int) (r : NodeRecord) : NodeRecord :=
  if numCellTruthy r.blockHeight = true ∧ r.blockHeight.getD 0 < minAcceptable then
    setNodeError now DELAY ERR_BLOCK_DELAY r
  else r

/-- checkBlockDelay: compute the fleet maximum over the records; do nothing
when it is falsy (0) or the threshold cell is falsy; otherwise flag every
record whose truthy height is below maxHeight - threshold. -/
def checkBlockDelay (now : Int) (threshold : Option Int) (rs : List NodeRecord) :
    List NodeRecord :=
  if maxHeightOf rs = 0 ∨ numCellTruthy threshold = false then rs
  else rs.map (delayStep now (maxHeightOf rs - threshold.getD 0))

/-- Whether processNotifications selects a record for the batch: non-Running
status, and either no last-notified time or at least the notification
interval elapsed since it. -/
def dueForNotification (now : Int) (r : NodeRecord) : Bool :=
  r.status != RUNNING &&
    (match r.lastNotifiedAt with
     | none => true
     | some t => decide (NOTIFICATION_INTERVAL ≤ now - t))

/-- The batch collected by processNotifications. -/
def notificationTargets (now : Int) (rs : List NodeRecord) : List NodeRecord :=
  rs.filter (fun r => dueForNotification now r)

/-- The last-notified stamping performed by sendNotification on each
batched record. -/
def stampIfDue (now : Int) (r : NodeRecord) : NodeRecord :=
  if dueForNotification now r then { r with lastNotifiedAt := some now } else r

/-- processNotifications: collect the batch; when non-empty, dispatch one
notification for the whole batch and stamp the last-notified time on
exactly the batched records. -/
def processNotifications (cfg : ScriptConfig) (now : Int) (rs : List NodeRecord) :
    List NodeRecord × List Effect :=
  if (notificationTargets now rs).isEmpty then (rs, [])
  else (rs.map (stampIfDue now), sendNotificationEffects cfg (notificationTargets now rs))

/-- The four-field state invariant of a node record: Running status, empty
error type, and both timestamps empty coincide. -/
def nodeInvariant (r : NodeRecord) : Prop :=
  (r.status = RUNNING ↔ r.errorType = "") ∧
  (r.status = RUNNING ↔ (r.errorDetectedAt = none ∧ r.lastNotifiedAt = none))

instance (r : NodeRecord) : Decidable (nodeInvariant r) := by
  unfold nodeInvariant
  infer_instance

/-- A sample configuration with no Slack settings and a fallback address. -/
def sampleCfg : ScriptConfig :=
  { slackWebhookUrl := "", slackToken := "", slackChannel := "",
    emailAddress := "ops@example.com", sessionEmail := "",
    emailThrows := false, slackThrows := false }

/-- A sample healthy record. -/
def runningRecord : NodeRecord :=
  { url := "http://node1.example.com:3000", status := "Running", errorType := "",
    dbState := "up", apiState := "up", blockHeight := some 100,
    errorDetectedAt := none, lastNotifiedAt := none }

/-- A sample record in the error state with both timestamps set. -/
def errorRecord : NodeRecord :=
  { url := "http://node2.example.com:3000", status := "Error", errorType := "Timeout",
    dbState := "", apiState := "", blockHeight := none,
    errorDetectedAt := some 1000, lastNotifiedAt := some 2000 }

/-- A record whose last notification was 20 minutes before time 1860000. -/
def twentyMinAgoRecord : NodeRecord :=
  { url := "http://node3.example.com:3000", status := "Error", errorType := "Timeout",
    dbState := "", apiState := "", blockHeight := none,
    errorDetectedAt := some 100, lastNotifiedAt := some 660000 }

/-- A record whose last notification was 31 minutes before time 1860000. -/
def thirtyOneMinAgoRecord : NodeRecord :=
  { url := "http://node4.example.com:3000", status := "Error", errorType := "Timeout",
    dbState := "", apiState := "", blockHeight := none,
    errorDetectedAt := some 100, lastNotifiedAt := some 0 }

/-- An error record never notified. -/
def neverNotifiedErrorRecord : NodeRecord :=
  { url := "http://node5.example.com:3000", status := "Error", errorType := "DB/API",
    dbState := "down", apiState := "up", blockHeight := some 10,
    errorDetectedAt := some 100, lastNotifiedAt := none }

lemma setNodeError_invariant (now : Int) (st et : String) (r : NodeRecord)
    (hst : st ≠ RUNNING) (het : et ≠ "") : nodeInvariant (setNodeError now st et r) := by
  unfold nodeInvariant setNodeError
  cases h : r.errorDetectedAt <;> simp [hst, het, h]

lemma clearHealthData_invariant (r : NodeRecord) (h : nodeInvariant r) :
    nodeInvariant (clearHealthData r) := by
  simpa [nodeInvariant, clearHealthData] using h

lemma clearNodeError_invariant (cfg : ScriptConfig) (r : NodeRecord) :
    nodeInvariant (clearNodeError cfg r).1 := by
  simp [nodeInvariant, clearNodeError]

lemma monitorNode_invariant (cfg : ScriptConfig) (now : Int) (hf : HealthFetch)
    (cf : ChainFetch) (r : NodeRecord) (h : nodeInvariant r) :
    nodeInvariant (monitorNode cfg now hf cf r).1 := by
  unfold monitorNode
  by_cases h1 : (checkNodeHealth hf).timeout
  · simp only [h1, if_true]
    exact clearHealthData_invariant _ (setNodeError_invariant _ _ _ _ (by decide) (by decide))
  · by_cases h2 : (checkNodeHealth hf).sslError
    · simp only [h1, h2, if_true, if_false, Bool.false_eq_true]
      exact clearHealthData_invariant _ (setNodeError_invariant _ _ _ _ (by decide) (by decide))
    · by_cases h3 : (checkNodeHealth hf).error.isSome
      · simp only [h1, h2, h3, if_true, if_false, Bool.false_eq_true]
        exact h
      · by_cases h4 : ((checkNodeHealth hf).db != "up" || (checkNodeHealth hf).api != "up")
        · simp only [h1, h2, h3, h4, if_true, if_false, Bool.false_eq_true]
          exact setNodeError_invariant _ _ _ _ (by decide) (by decide)
        · simp only [h1, h2, h3, h4, if_true, if_false, Bool.false_eq_true]
          exact clearNodeError_invariant _ _

lemma delayStep_invariant (now m : Int) (r : NodeRecord) (h : nodeInvariant r) :
    nodeInvariant (delayStep now m r) := by
  unfold delayStep
  split
  · exact setNodeError_invariant _ _ _ _ (by decide) (by decide)
  · exact h

lemma checkBlockDelay_invariant (now : Int) (thr : Option Int) (rs : List NodeRecord)
    (h : ∀ x ∈ rs, nodeInvariant x) :
    ∀ x ∈ checkBlockDelay now thr rs, nodeInvariant x := by
  unfold checkBlockDelay
  split
  · exact h
  · intro x hx
    rcases List.mem_map.mp hx with ⟨y, hy, rfl⟩
    exact delayStep_invariant _ _ _ (h y hy)

lemma stampIfDue_invariant (now : Int) (r : NodeRecord) (h : nodeInvariant r) :
    nodeInvariant (stampIfDue now r) := by
  unfold stampIfDue
  split
  · rename_i hdue
    have hst : r.status ≠ RUNNING := by
      intro he
      simp [dueForNotification, he] at hdue
    have het : r.errorType ≠ "" := fun he => hst (h.1.mpr he)
    simp [nodeInvariant, hst, het]
  · exact h

lemma processNotifications_invariant (cfg : ScriptConfig) (now : Int) (rs : List NodeRecord)
    (h : ∀ x ∈ rs, nodeInvariant x) :
    ∀ x ∈ (processNotifications cfg now rs).1, nodeInvariant x := by
  unfold processNotifications
  split
  · exact h
  · intro x hx
    rcases List.mem_map.mp hx with ⟨y, hy, rfl⟩
    exact stampIfDue_invariant _ _ (h y hy)

/-- Claim C1: the four-field invariant — status Running iff error kind empty
iff both the error-detected and last-notified timestamps are empty — is
preserved by every transition of a pass: the per-node state-machine step,
the block-delay detection step, and the notification-scheduling step. -/
theorem c1_invariant_preserved (cfg : ScriptConfig) (now : Int) (hf : HealthFetch)
    (cf : ChainFetch) (thr : Option Int) (r : NodeRecord) (rs : List NodeRecord)
    (hr : nodeInvariant r) (hrs : ∀ x ∈ rs, nodeInvariant x) :
    nodeInvariant (monitorNode cfg now hf cf r).1 ∧
    (∀ x ∈ checkBlockDelay now thr rs, nodeInvariant x) ∧
    (∀ x ∈ (processNotifications cfg now rs).1, nodeInvariant x) :=
  ⟨monitorNode_invariant cfg now hf cf r hr,
   checkBlockDelay_invariant now thr rs hrs,
   processNotifications_invariant cfg now rs hrs⟩

/-- Witness for C1 at concrete inputs: a timeout probe on a healthy record,
block-delay detection and notification scheduling over a two-record fleet. -/
theorem c1_invariant_preserved_witness :
    nodeInvariant (monitorNode sampleCfg 7 (HealthFetch.thrown "timeout hit" true false)
        (ChainFetch.thrown "net") runningRecord).1 ∧
    (∀ x ∈ checkBlockDelay 7 (some 50) [runningRecord, errorRecord], nodeInvariant x) ∧
    (∀ x ∈ (processNotifications sampleCfg 7 [runningRecord, errorRecord]).1,
       nodeInvariant x) :=
  c1_invariant_preserved sampleCfg 7 (HealthFetch.thrown "timeout hit" true false)
    (ChainFetch.thrown "net") (some 50) runningRecord [runningRecord, errorRecord]
    (by decide) (by decide)

/-- Claim C6: a TransportError probe outcome — a non-200 health response, or
a thrown failure that is neither timeout- nor TLS-classified — leaves the
prior node record completely unchanged. -/
theorem c6_transport_error_no_mutation (cfg : ScriptConfig) (now : Int) (cf : ChainFetch)
    (r : NodeRecord) (hf : HealthFetch)
    (htrans : (∃ code body, hf = HealthFetch.response code body ∧ code ≠ 200) ∨
              (∃ e, hf = HealthFetch.thrown e false false)) :
    (monitorNode cfg now hf cf r).1 = r := by
  rcases htrans with ⟨code, body, rfl, hcode⟩ | ⟨e, rfl⟩
  · simp [monitorNode, checkNodeHealth, hcode]
  · simp [monitorNode, checkNodeHealth]

/-- Witness for C6: an HTTP 500 health response leaves a concrete error
record untouched. -/
theorem c6_transport_error_no_mutation_witness :
    (monitorNode sampleCfg 7 (HealthFetch.response 500 ⟨none, none⟩)
        (ChainFetch.thrown "net") errorRecord).1 = errorRecord :=
  c6_transport_error_no_mutation sampleCfg 7 (ChainFetch.thrown "net") errorRecord
    (HealthFetch.response 500 ⟨none, none⟩)
    (Or.inl ⟨500, ⟨none, none⟩, rfl, by decide⟩)

/-- Claim C7: the scheduler selects a non-Running record exactly when its
last-notified cell is empty or at least 30 minutes old; Running records are
never selected; and concretely, at time 1860000 a record notified 20 minutes
ago is excluded while records notified 31 minutes ago or never are included. -/
theorem c7_notification_due (now : Int) (r : NodeRecord) (rs : List NodeRecord) :
    (r.status = RUNNING → dueForNotification now r = false) ∧
    (r.status ≠ RUNNING →
      (dueForNotification now r = true ↔
        (r.lastNotifiedAt = none ∨
          ∃ t, r.lastNotifiedAt = some t ∧ NOTIFICATION_INTERVAL ≤ now - t))) ∧
    notificationTargets now rs = rs.filter (fun x => dueForNotification now x) ∧
    dueForNotification 1860000 twentyMinAgoRecord = false ∧
    dueForNotification 1860000 thirtyOneMinAgoRecord = true ∧
    dueForNotification 1860000 neverNotifiedErrorRecord = true := by
  refine ⟨?_, ?_, rfl, by decide, by decide, by decide⟩
  · intro h
    simp [dueForNotification, h]
  · intro h
    cases hl : r.lastNotifiedAt <;> simp [dueForNotification, hl, h]

/-- Witness for C7: the Running sample record is not selected, and the
characterization applied at a record notified 31 minutes earlier. -/
theorem c7_notification_due_witness :
    dueForNotification 1860000 runningRecord = false ∧
    dueForNotification 1860000 thirtyOneMinAgoRecord = true :=
  ⟨(c7_notification_due 1860000 runningRecord []).1 (by decide),
   ((c7_notification_due 1860000 thirtyOneMinAgoRecord []).2.1 (by decide)).mpr
     (Or.inr ⟨0, rfl, by decide⟩)⟩

lemma setNodeError_preserves_detected (now : Int) (st et : String) (r : NodeRecord) (t : Int)
    (h : r.errorDetectedAt = some t) : (setNodeError now st et r).errorDetectedAt = some t := by
  simp [setNodeError, h]

/-- Claim C2: an already-set error-detected timestamp survives every
operation that keeps the node non-Running — timeout, TLS or degraded
outcomes of the state machine, and block-delay flagging — even when the
error kind changes; block-delay detection either leaves the fleet alone or
applies the flagging step to each record. -/
theorem c2_error_detected_first_write (cfg : ScriptConfig) (now : Int) (hf : HealthFetch)
    (cf : ChainFetch) (thr : Option Int) (rs : List NodeRecord) (r : NodeRecord) (t : Int)
    (hset : r.errorDetectedAt = some t) :
    ((monitorNode cfg now hf cf r).1.status ≠ RUNNING →
       (monitorNode cfg now hf cf r).1.errorDetectedAt = some t) ∧
    (∀ minAcc : Int, (delayStep now minAcc r).errorDetectedAt = some t) ∧
    (checkBlockDelay now thr rs = rs ∨
       checkBlockDelay now thr rs = rs.map (delayStep now (maxHeightOf rs - thr.getD 0))) := by
  refine ⟨?_, ?_, ?_⟩
  · unfold monitorNode
    by_cases h1 : (checkNodeHealth hf).timeout
    · intro _
      simp [h1, clearHealthData, setNodeError, hset]
    · by_cases h2 : (checkNodeHealth hf).sslError
      · intro _
        simp [h1, h2, clearHealthData, setNodeError, hset]
      · by_cases h3 : (checkNodeHealth hf).error.isSome
        · intro _
          simp [h1, h2, h3, hset]
        · by_cases h4 : ((checkNodeHealth hf).db != "up" || (checkNodeHealth hf).api != "up")
          · intro _
            cases hch : (getChainHeight cf).height <;>
              simp [h1, h2, h3, h4, hch, setNodeError, hset]
          · intro hcon
            exfalso
            apply hcon
            cases hch : (getChainHeight cf).height <;>
              simp [h1, h2, h3, h4, hch, clearNodeError]
  · intro minAcc
    unfold delayStep
    split
    · exact setNodeError_preserves_detected now _ _ r t hset
    · exact hset
  · unfold checkBlockDelay
    split
    · exact Or.inl rfl
    · exact Or.inr rfl

/-- Witness for C2: a record in Error(Timeout) with errorDetectedAt 1000
receives a degraded Healthy outcome (db "down"); the error kind becomes
DB/API while errorDetectedAt stays 1000. -/
theorem c2_error_detected_first_write_witness :
    (monitorNode sampleCfg 7 (HealthFetch.response 200 ⟨some "down", some "up"⟩)
        (ChainFetch.thrown "net") errorRecord).1.errorDetectedAt = some 1000 :=
  (c2_error_detected_first_write sampleCfg 7 (HealthFetch.response 200 ⟨some "down", some "up"⟩)
      (ChainFetch.thrown "net") none [] errorRecord 1000 rfl).1 (by decide)

lemma foldl_maxStep_init_le (rs : List NodeRecord) (a : Int) : a ≤ rs.foldl maxStep a := by
  induction rs generalizing a with
  | nil => simp
  | cons r rs ih =>
    refine le_trans ?_ (ih (maxStep a r))
    unfold maxStep
    split
    · rename_i hcond
      exact le_of_lt hcond.2
    · exact le_refl a

lemma mem_le_foldl_maxStep (rs : List NodeRecord) :
    ∀ (a : Int) (r : NodeRecord), r ∈ rs → numCellTruthy r.blockHeight = true →
      r.blockHeight.getD 0 ≤ rs.foldl maxStep a := by
  induction rs with
  | nil => intro a r hr; cases hr
  | cons x xs ih =>
    intro a r hr ht
    rcases List.mem_cons.mp hr with rfl | hmem
    · refine le_trans ?_ (foldl_maxStep_init_le xs (maxStep a r))
      unfold maxStep
      split
      · exact le_refl _
      · rename_i hcond
        exact le_of_not_lt (fun hlt => hcond ⟨ht, hlt⟩)
    · exact ih (maxStep a x) r hmem ht

lemma truthy_height_eq (o : Option Int) (h : numCellTruthy o = true) : o = some (o.getD 0) := by
  cases o <;> simp_all [numCellTruthy]

lemma falsy_height_getD (o : Option Int) (h : numCellTruthy o = false) : o.getD 0 = 0 := by
  cases o <;> simp_all [numCellTruthy]

lemma foldl_maxStep_attained (rs : List NodeRecord) :
    ∀ a : Int, rs.foldl maxStep a = a ∨
      ∃ r ∈ rs, numCellTruthy r.blockHeight = true ∧ r.blockHeight = some (rs.foldl maxStep a) := by
  induction rs with
  | nil => intro a; exact Or.inl rfl
  | cons x xs ih =>
    intro a
    rcases ih (maxStep a x) with h | ⟨r, hmem, ht, heq⟩
    · simp only [List.foldl_cons, h]
      unfold maxStep
      split
      · rename_i hcond
        exact Or.inr ⟨x, List.mem_cons_self x xs, hcond.1, truthy_height_eq _ hcond.1⟩
      · exact Or.inl rfl
    · exact Or.inr ⟨r, List.mem_cons_of_mem x hmem, ht, heq⟩

lemma foldl_maxStep_all_falsy (rs : List NodeRecord)
    (h : ∀ r ∈ rs, numCellTruthy r.blockHeight = false) :
    ∀ a : Int, rs.foldl maxStep a = a := by
  induction rs with
  | nil => intro a; rfl
  | cons x xs ih =>
    intro a
    have hx : maxStep a x = a := by
      unfold maxStep
      split
      · rename_i hcond
        rw [h x (List.mem_cons_self x xs)] at hcond
        exact absurd hcond.1 (by simp)
      · rfl
    simp only [List.foldl_cons, hx]
    exact ih (fun r hr => h r (List.mem_cons_of_mem x hr)) a

lemma maxHeightOf_nonneg (rs : List NodeRecord) : 0 ≤ maxHeightOf rs :=
  foldl_maxStep_init_le rs 0

/-- A healthy fleet record at height 1000. -/
def fleetNode1000 : NodeRecord :=
  { url := "http://a.example.com:3000", status := "Running", errorType := "",
    dbState := "up", apiState := "up", blockHeight := some 1000,
    errorDetectedAt := none, lastNotifiedAt := none }

/-- A healthy fleet record at height 940. -/
def fleetNode940 : NodeRecord :=
  { url := "http://b.example.com:3000", status := "Running", errorType := "",
    dbState := "up", apiState := "up", blockHeight := some 940,
    errorDetectedAt := none, lastNotifiedAt := none }

/-- A healthy fleet record at height 951. -/
def fleetNode951 : NodeRecord :=
  { url := "http://c.example.com:3000", status := "Running", errorType := "",
    dbState := "up", apiState := "up", blockHeight := some 951,
    errorDetectedAt := none, lastNotifiedAt := none }

/-- Claim C3: over records with non-negative stored heights, the detector
does nothing when no record has a truthy height or the threshold cell is
falsy; otherwise the fleet maximum bounds every stored height and is
attained by some record, and the detector flags — with first-write-wins
stamping via setNodeError — exactly the records whose truthy height is
below maxHeight - threshold.  Concretely, with heights 1000, 940, 951 and
threshold 50, only the node at 940 is flagged. -/
theorem c3_block_delay_detection (now : Int) (thr : Option Int) (rs : List NodeRecord)
    (hpos : ∀ r ∈ rs, 0 ≤ r.blockHeight.getD 0) :
    ((∀ r ∈ rs, numCellTruthy r.blockHeight = false) → checkBlockDelay now thr rs = rs) ∧
    (numCellTruthy thr = false → checkBlockDelay now thr rs = rs) ∧
    ((∃ r ∈ rs, numCellTruthy r.blockHeight = true) → numCellTruthy thr = true →
      (∀ r ∈ rs, r.blockHeight.getD 0 ≤ maxHeightOf rs) ∧
      (∃ r ∈ rs, r.blockHeight = some (maxHeightOf rs)) ∧
      checkBlockDelay now thr rs = rs.map (fun r =>
        if numCellTruthy r.blockHeight = true ∧
            r.blockHeight.getD 0 < maxHeightOf rs - thr.getD 0 then
          setNodeError now DELAY ERR_BLOCK_DELAY r
        else r)) ∧
    checkBlockDelay 0 (some 50) [fleetNode1000, fleetNode940, fleetNode951] =
      [fleetNode1000, setNodeError 0 DELAY ERR_BLOCK_DELAY fleetNode940, fleetNode951] := by
  refine ⟨?_, ?_, ?_, by decide⟩
  · intro hall
    unfold checkBlockDelay
    rw [if_pos (Or.inl (show maxHeightOf rs = 0 from foldl_maxStep_all_falsy rs hall 0))]
  · intro hthr
    unfold checkBlockDelay
    rw [if_pos (Or.inr hthr)]
  · rintro ⟨r, hmem, ht⟩ hthr
    have hbound : ∀ x ∈ rs, x.blockHeight.getD 0 ≤ maxHeightOf rs := by
      intro x hx
      by_cases htx : numCellTruthy x.blockHeight = true
      · exact mem_le_foldl_maxStep rs 0 x hx htx
      · rw [falsy_height_getD x.blockHeight (by simpa using htx)]
        exact maxHeightOf_nonneg rs
    have hne : maxHeightOf rs ≠ 0 := by
      have h1 : r.blockHeight.getD 0 ≤ maxHeightOf rs := mem_le_foldl_maxStep rs 0 r hmem ht
      have h2 : 0 ≤ r.blockHeight.getD 0 := hpos r hmem
      have h3 : r.blockHeight.getD 0 ≠ 0 := by
        rcases hv : r.blockHeight with _ | v
        · rw [hv] at ht
          simp [numCellTruthy] at ht
        · rw [hv] at ht
          simpa [numCellTruthy, hv] using ht
      omega
    refine ⟨hbound, ?_, ?_⟩
    · rcases foldl_maxStep_attained rs 0 with h | ⟨x, hx, _, heq⟩
      · exact absurd h hne
      · exact ⟨x, hx, heq⟩
    · unfold checkBlockDelay
      rw [if_neg (by simp [hne, hthr])]
      rfl

/-- Witness for C3: the 1000/940/951 fleet with threshold 50 — the maximum
is attained by a record of the fleet. -/
theorem c3_block_delay_detection_witness :
    ∃ r ∈ [fleetNode1000, fleetNode940, fleetNode951],
      r.blockHeight = some (maxHeightOf [fleetNode1000, fleetNode940, fleetNode951]) :=
  ((c3_block_delay_detection 0 (some 50) [fleetNode1000, fleetNode940, fleetNode951]
      (by decide)).2.2.1 ⟨fleetNode1000, by simp, by decide⟩ (by decide)).2.1

/-- A record whose stored block height is 0. -/
def zeroHeightRecord : NodeRecord :=
  { url := "http://z.example.com:3000", status := "Running", errorType := "",
    dbState := "up", apiState := "up", blockHeight := some 0,
    errorDetectedAt := none, lastNotifiedAt := none }

/-- Claim C10: a stored block height of 0 behaves exactly like a missing
height in block-delay detection — it contributes nothing to the fleet
maximum, the flagging step never touches such a record no matter how low 0
is relative to the minimum acceptable height, and the detector's output on
a fleet containing the record is the output on the fleet without it with
the record reinserted unchanged. -/
theorem c10_zero_height_like_missing (now : Int) (thr : Option Int)
    (l1 l2 : List NodeRecord) (r0 : NodeRecord) (h0 : r0.blockHeight = some 0) :
    maxHeightOf (l1 ++ r0 :: l2) = maxHeightOf (l1 ++ l2) ∧
    (∀ minAcc : Int, delayStep now minAcc r0 = r0) ∧
    checkBlockDelay now thr (l1 ++ r0 :: l2) =
      (checkBlockDelay now thr (l1 ++ l2)).take l1.length ++
        r0 :: (checkBlockDelay now thr (l1 ++ l2)).drop l1.length := by
  have hfalsy : numCellTruthy r0.blockHeight = false := by simp [numCellTruthy, h0]
  have hstep : ∀ a : Int, maxStep a r0 = a := by
    intro a
    unfold maxStep
    rw [if_neg (by simp [hfalsy])]
  have hmax : maxHeightOf (l1 ++ r0 :: l2) = maxHeightOf (l1 ++ l2) := by
    unfold maxHeightOf
    rw [List.foldl_append, List.foldl_append, List.foldl_cons, hstep]
  have hdelay : ∀ minAcc : Int, delayStep now minAcc r0 = r0 := by
    intro minAcc
    unfold delayStep
    rw [if_neg (by simp [hfalsy])]
  refine ⟨hmax, hdelay, ?_⟩
  unfold checkBlockDelay
  rw [hmax]
  by_cases hc : maxHeightOf (l1 ++ l2) = 0 ∨ numCellTruthy thr = false
  · rw [if_pos hc, if_pos hc, List.take_left, List.drop_left]
  · rw [if_neg hc, if_neg hc, List.map_append, List.map_cons,
      hdelay, List.map_append]
    congr 1
    · rw [List.take_append_of_le_length (by simp)]
      simp
    · congr 1
      rw [List.drop_append_of_le_length (by simp)]
      simp

/-- Witness for C10: a record at height 0 in a fleet whose maximum is 1000
with threshold 50 is left unchanged by the flagging step. -/
theorem c10_zero_height_like_missing_witness :
    delayStep 0 950 zeroHeightRecord = zeroHeightRecord :=
  (c10_zero_height_like_missing 0 (some 50) [fleetNode1000] [] zeroHeightRecord rfl).2.1 950

/-- Whether the effect is a direct-email send. -/
def Effect.isEmail : Effect → Bool
  | Effect.email _ _ => true
  | _ => false

lemma slackAttempt_no_email (cfg : ScriptConfig) (m : Msg) :
    ∀ e ∈ slackAttempt cfg m, e.isEmail = false := by
  intro e he
  unfold slackAttempt sendSlackNotification at he
  rcases List.mem_append.mp he with h | h
  · split at h
    · cases h
    · split at h
      · rw [List.mem_singleton.mp h]; rfl
      · split at h
        · rw [List.mem_singleton.mp h]; rfl
        · cases h
  · split at h
    · rw [List.mem_singleton.mp h]; rfl
    · cases h

/-- Claim C4: for both alert dispatch and recovery dispatch, when Slack
configuration exists no direct email appears among the effects; when it is
absent and an operator address resolves (session identity falling back to
the configured address), a direct email to that address is dispatched. -/
theorem c4_channel_exclusivity (cfg : ScriptConfig) (targets : List NodeRecord) (url : String) :
    (checkSlackConfiguration cfg = true →
       (∀ e ∈ sendNotificationEffects cfg targets, e.isEmail = false) ∧
       (∀ e ∈ sendRecoveryNotification cfg url, e.isEmail = false)) ∧
    (checkSlackConfiguration cfg = false → resolveOperatorEmail cfg ≠ "" →
       Effect.email (resolveOperatorEmail cfg) (Msg.alertBatch targets) ∈
         sendNotificationEffects cfg targets ∧
       Effect.email (resolveOperatorEmail cfg) (Msg.recovery url) ∈
         sendRecoveryNotification cfg url) := by
  constructor
  · intro hs
    constructor
    · intro e he
      unfold sendNotificationEffects at he
      rw [if_pos hs] at he
      exact slackAttempt_no_email cfg _ e (by simpa using he)
    · intro e he
      unfold sendRecoveryNotification at he
      rw [if_pos hs] at he
      exact slackAttempt_no_email cfg _ e (by simpa using he)
  · intro hs hne
    constructor
    · unfold sendNotificationEffects
      rw [if_neg (by simp [hs])]
      refine List.mem_append_left _ ?_
      unfold directEmailEffects
      rw [if_pos (by simpa using hne)]
      split <;> simp
    · unfold sendRecoveryNotification
      rw [if_neg (by simp [hs])]
      refine List.mem_append_left _ ?_
      unfold directEmailEffects
      rw [if_pos (by simpa using hne)]
      split <;> simp

/-- Witness for C4: with no Slack configuration and the fallback address
configured, a recovery dispatch emails the resolved operator address. -/
theorem c4_channel_exclusivity_witness :
    Effect.email (resolveOperatorEmail sampleCfg) (Msg.recovery "http://node1.example.com:3000") ∈
      sendRecoveryNotification sampleCfg "http://node1.example.com:3000" :=
  ((c4_channel_exclusivity sampleCfg [] "http://node1.example.com:3000").2
    (by decide) (by decide)).2

/-- Claim C5: a node receiving a Healthy outcome with db and api both "up"
transitions to Running with error kind and both timestamps cleared; when its
last-notified cell was set, the transition's side effects are exactly those
of one recovery dispatch for its URL, and when the cell was empty no effect
is emitted. -/
theorem c5_recovery_notification (cfg : ScriptConfig) (now : Int) (hf : HealthFetch)
    (cf : ChainFetch) (r : NodeRecord)
    (hok : checkNodeHealth hf =
      { timeout := false, sslError := false, error := none, db := "up", api := "up" }) :
    ((monitorNode cfg now hf cf r).1.status = RUNNING ∧
     (monitorNode cfg now hf cf r).1.errorType = "" ∧
     (monitorNode cfg now hf cf r).1.errorDetectedAt = none ∧
     (monitorNode cfg now hf cf r).1.lastNotifiedAt = none) ∧
    (r.lastNotifiedAt.isSome = true →
       (monitorNode cfg now hf cf r).2 = sendRecoveryNotification cfg r.url) ∧
    (r.lastNotifiedAt = none → (monitorNode cfg now hf cf r).2 = []) := by
  have hred : monitorNode cfg now hf cf r =
      clearNodeError cfg (match (getChainHeight cf).height with
        | some ht => { r with dbState := "up", apiState := "up", blockHeight := some ht }
        | none => { r with dbState := "up", apiState := "up" }) := by
    unfold monitorNode
    rw [hok]
    simp
  cases hch : (getChainHeight cf).height <;>
    rw [hch] at hred <;>
    refine ⟨⟨?_, ?_, ?_, ?_⟩, ?_, ?_⟩ <;>
    intros <;> simp_all [clearNodeError]

/-- Witness for C5: a previously alerted error record probed healthy emits
the effects of one recovery dispatch for its URL and is fully cleared. -/
theorem c5_recovery_notification_witness :
    (monitorNode sampleCfg 7 (HealthFetch.response 200 ⟨some "up", some "up"⟩)
        (ChainFetch.thrown "net") errorRecord).2 =
      sendRecoveryNotification sampleCfg errorRecord.url :=
  (c5_recovery_notification sampleCfg 7 (HealthFetch.response 200 ⟨some "up", some "up"⟩)
      (ChainFetch.thrown "net") errorRecord (by decide)).2.1 (by decide)

lemma processNotifications_fst (cfg : ScriptConfig) (now : Int) (rs : List NodeRecord) :
    (processNotifications cfg now rs).1 = rs.map (stampIfDue now) := by
  unfold processNotifications
  split
  · rename_i hempty
    have hall : ∀ r ∈ rs, dueForNotification now r = false := by
      intro r hr
      have := List.filter_eq_nil_iff.mp (List.isEmpty_iff.mp (by simpa [notificationTargets] using hempty)) r hr
      simpa using this
    have : rs.map (stampIfDue now) = rs.map id :=
      List.map_congr_left (fun r hr => by simp [stampIfDue, hall r hr])
    simp [this]
  · rfl

/-- Claim C8: the scheduler stamps the last-notified time, with the dispatch
time, on exactly the records of the dispatched batch — due records get the
stamp, all other records are untouched — and the stamping is unchanged
whichever of the email or Slack transports throws. -/
theorem c8_stamping_exact_and_fault_tolerant (cfg : ScriptConfig) (now : Int)
    (rs : List NodeRecord) :
    (processNotifications cfg now rs).1 = rs.map (stampIfDue now) ∧
    (∀ r, dueForNotification now r = true →
       stampIfDue now r = { r with lastNotifiedAt := some now }) ∧
    (∀ r, dueForNotification now r = false → stampIfDue now r = r) ∧
    (∀ eT sT : Bool,
       (processNotifications { cfg with emailThrows := eT, slackThrows := sT } now rs).1 =
         rs.map (stampIfDue now)) := by
  refine ⟨processNotifications_fst cfg now rs, ?_, ?_, ?_⟩
  · intro r h
    simp [stampIfDue, h]
  · intro r h
    simp [stampIfDue, h]
  · intro eT sT
    exact processNotifications_fst _ now rs

/-- Witness for C8: over a fleet with one Running and one due error record,
both with and without transport throws, only the due record is stamped. -/
theorem c8_stamping_exact_and_fault_tolerant_witness :
    (processNotifications { sampleCfg with emailThrows := true, slackThrows := true }
        1860000 [runningRecord, thirtyOneMinAgoRecord]).1 =
      [runningRecord, thirtyOneMinAgoRecord].map (stampIfDue 1860000) :=
  (c8_stamping_exact_and_fault_tolerant sampleCfg 1860000
      [runningRecord, thirtyOneMinAgoRecord]).2.2.2 true true

/-- Counterexample to C9 as stated: getChainHeight only guards against NaN,
so a chain-info 200 response whose height field parses to the negative
integer -1 has that height attached, and a healthy probe then stores -1 in
the record — contradicting "attached only when ... non-negative integer". -/
theorem c9_counterexample_negative_height :
    (getChainHeight (ChainFetch.ok ⟨200, some (-1)⟩)).height = some (-1) ∧
    ((-1 : Int) < 0) ∧
    (monitorNode sampleCfg 0 (HealthFetch.response 200 ⟨some "up", some "up"⟩)
        (ChainFetch.ok ⟨200, some (-1)⟩) runningRecord).1.blockHeight = some (-1) := by
  decide

/-- Claim C9 amended: the chain height is attached to the outcome only when
the chain-info call returns 200 with a height field parsing to an integer
(of any sign); on any failure of that second call the height is omitted,
the health handling of the record — every field except the stored height,
and the emitted effects — is unaffected by the chain call, and the
previously stored blockHeight is left untouched. -/
theorem c9_amended_height_attachment (cfg : ScriptConfig) (now : Int) (r : NodeRecord)
    (hf : HealthFetch) (cf : ChainFetch)
    (hok : (checkNodeHealth hf).timeout = false ∧ (checkNodeHealth hf).sslError = false ∧
           (checkNodeHealth hf).error = none) :
    (∀ h : Int, (getChainHeight cf).height = some h → cf = ChainFetch.ok ⟨200, some h⟩) ∧
    ((getChainHeight cf).height = none →
       (monitorNode cfg now hf cf r).1.blockHeight = r.blockHeight) ∧
    (∀ cf' : ChainFetch,
       (monitorNode cfg now hf cf r).1.status = (monitorNode cfg now hf cf' r).1.status ∧
       (monitorNode cfg now hf cf r).1.errorType = (monitorNode cfg now hf cf' r).1.errorType ∧
       (monitorNode cfg now hf cf r).1.dbState = (monitorNode cfg now hf cf' r).1.dbState ∧
       (monitorNode cfg now hf cf r).1.apiState = (monitorNode cfg now hf cf' r).1.apiState ∧
       (monitorNode cfg now hf cf r).1.errorDetectedAt =
         (monitorNode cfg now hf cf' r).1.errorDetectedAt ∧
       (monitorNode cfg now hf cf r).1.lastNotifiedAt =
         (monitorNode cfg now hf cf' r).1.lastNotifiedAt ∧
       (monitorNode cfg now hf cf r).2 = (monitorNode cfg now hf cf' r).2) := by
  obtain ⟨h1, h2, h3⟩ := hok
  have hmon : ∀ c : ChainFetch, monitorNode cfg now hf c r =
      (let r1 := { r with dbState := (checkNodeHealth hf).db,
                          apiState := (checkNodeHealth hf).api }
       let r2 := match (getChainHeight c).height with
         | some ht => { r1 with blockHeight := some ht }
         | none => r1
       if (checkNodeHealth hf).db != "up" || (checkNodeHealth hf).api != "up" then
         (setNodeError now ERROR ERR_DB_API r2, [])
       else clearNodeError cfg r2) := by
    intro c
    unfold monitorNode
    rw [if_neg (by simp [h1]), if_neg (by simp [h2]), if_neg (by simp [h3])]
  refine ⟨?_, ?_, ?_⟩
  · intro h hh
    cases cf with
    | ok resp =>
      cases resp with
      | mk code hp =>
        simp only [getChainHeight] at hh
        by_cases hc : code = 200
        · subst hc
          rw [if_neg (by simp)] at hh
          simp only at hh
          simp [hh]
        · rw [if_pos (by simpa using hc)] at hh
          simp at hh
    | thrown e =>
      simp [getChainHeight] at hh
  · intro hh
    rw [hmon cf, hh]
    by_cases hd : ((checkNodeHealth hf).db != "up" || (checkNodeHealth hf).api != "up") <;>
      simp [hd, setNodeError, clearNodeError]
  · intro cf'
    rw [hmon cf, hmon cf']
    cases hch : (getChainHeight cf).height <;> cases hch' : (getChainHeight cf').height <;>
      by_cases hd : ((checkNodeHealth hf).db != "up" || (checkNodeHealth hf).api != "up") <;>
      simp [hd, setNodeError, clearNodeError]

/-- Witness for C9 amended: healthy probe, chain call throwing — the stored
height of the running sample record stays 100. -/
theorem c9_amended_height_attachment_witness :
    (monitorNode sampleCfg 7 (HealthFetch.response 200 ⟨some "up", some "up"⟩)
        (ChainFetch.thrown "net") runningRecord).1.blockHeight = runningRecord.blockHeight :=
  (c9_amended_height_attachment sampleCfg 7 runningRecord
      (HealthFetch.response 200 ⟨some "up", some "up"⟩) (ChainFetch.thrown "net")
      ⟨by decide, by decide, by decide⟩).2.1 (by decide)

end SymbolNodeMonitor
